/-
Verification of the SeleniumBase n8n node's job-lifecycle client.

Shallow embedding of the core logic of the repository:
  * `waitForJobCompletion` and its polling loop
    (src/nodes/SeleniumBase/transport/apiClient.ts),
  * `submitJob` payload construction (same file),
  * `downloadAllArtifacts` (same file),
  * `buildParamsObject` (src/nodes/SeleniumBase/helpers/params.ts),
  * the failed-job error-message construction of `executeScriptOperation`
    (src/nodes/SeleniumBase/operations/executeScript.ts) together with
    `getErrorMessage` / `cleanupWithoutMaskingPrimaryError`
    (src/nodes/SeleniumBase/helpers/errors.ts),
  * the `getJobs` / `getProfiles` load-options methods
    (src/nodes/SeleniumBase/methods/loadOptions.ts).

Modelling conventions:
  * JavaScript numbers are modelled by `JSNumber`: NaN, the two infinities,
    or a finite value represented as a rational.  The properties under
    study do not depend on floating-point rounding.
  * Network interaction is modelled by an environment: the sequence of
    status strings the server returns, and the elapsed-time value observed
    by `Date.now() - startTime` at each loop iteration head (the only
    places the code samples the clock).
  * The possibly non-terminating polling loop is given fuel; `none` means
    the fuel ran out, i.e. the real loop would still be polling.
  * `String.prototype.trim` / `toLowerCase` are modelled by list-based
    `jsTrim` / `jsToLower`; the status strings involved are ASCII, where
    these agree with the JS functions.
  * Thrown errors become explicit error outcomes; JS objects used as
    string-keyed maps become either association lists or functions
    `String → Option _`.
-/
import Mathlib

/-- JavaScript number: NaN, ±Infinity, or a finite value (as a rational). -/
inductive JSNumber
  | nan
  | posInf
  | negInf
  | finite (q : ℚ)
deriving DecidableEq

/-- `Number.isFinite`. -/
def JSNumber.isFinite : JSNumber → Bool
  | .finite _ => true
  | _ => false

/-- `a < b` for a JS number `a` against a finite constant `b`
(IEEE semantics: NaN compares false). -/
def JSNumber.ltQ : JSNumber → ℚ → Bool
  | .nan, _ => false
  | .posInf, _ => false
  | .negInf, _ => true
  | .finite q, b => decide (q < b)

/-- `a <= b` for a JS number `a` against a finite constant `b`
(IEEE semantics: NaN compares false). -/
def JSNumber.leQ : JSNumber → ℚ → Bool
  | .nan, _ => false
  | .posInf, _ => false
  | .negInf, _ => true
  | .finite q, b => decide (q ≤ b)

/-- The rational value of a finite JS number (junk on non-finite values,
which the code only uses after an `isFinite` guard). -/
def JSNumber.toQ : JSNumber → ℚ
  | .finite q => q
  | _ => 0

/-- `String.prototype.toLowerCase` (ASCII fragment). -/
def jsToLower (s : String) : String :=
  ⟨s.data.map Char.toLower⟩

/-- `String.prototype.trim`: drop leading and trailing whitespace. -/
def jsTrim (s : String) : String :=
  ⟨((s.data.dropWhile Char.isWhitespace).reverse.dropWhile Char.isWhitespace).reverse⟩

/-- constants.ts: `MILLISECONDS_PER_SECOND`. -/
def MILLISECONDS_PER_SECOND : ℚ := 1000

/-- constants.ts: `JOB_STATUS.PENDING`. -/
def JOB_STATUS_PENDING : String := "pending"

/-- constants.ts: `JOB_STATUS.RUNNING`. -/
def JOB_STATUS_RUNNING : String := "running"

/-- constants.ts: `JOB_STATUS.COMPLETED`. -/
def JOB_STATUS_COMPLETED : String := "completed"

/-- constants.ts: `JOB_STATUS.FAILED`. -/
def JOB_STATUS_FAILED : String := "failed"

/-- `` `${s ?? ''}`.trim().toLowerCase() `` applied to a possibly
missing/null string field (apiClient.ts lines 268 and 286). -/
def normalizeStatus (s : Option String) : String :=
  jsToLower (jsTrim (s.getD ""))

/-- Environment of one `waitForJobCompletion` run: `responses k` is the
`status` field of the `k`-th status response (`none` when the field is
missing/null), and `elapsed k` is the value of `Date.now() - startTime`
observed at the head of the iteration that issues request `k`. -/
structure PollEnv where
  responses : ℕ → Option String
  elapsed : ℕ → ℚ

/-- Errors `waitForJobCompletion` can throw (as `NodeOperationError`s). -/
inductive PollError
  | invalidPollingInterval
  | invalidTimeout
  | timedOut
  | emptyStatus
  | unknownStatus (s : String)
deriving DecidableEq

/-- Outcome of a `waitForJobCompletion` run: normal return or a thrown error. -/
inductive PollOutcome
  | ok
  | error (e : PollError)
deriving DecidableEq

/-- The `while (status === PENDING || status === RUNNING)` loop of
`waitForJobCompletion` (apiClient.ts lines 273–305).  `k` counts the status
requests issued so far; the returned number is the total count of status
requests at exit.  `none` means the fuel ran out with the loop still
polling. -/
def pollLoop (env : PollEnv) (timeoutMs : ℚ) :
    ℕ → String → ℕ → Option (PollOutcome × ℕ)
  | fuel, status, k =>
    if status = JOB_STATUS_PENDING ∨ status = JOB_STATUS_RUNNING then
      match fuel with
      | 0 => none
      | fuel + 1 =>
        if env.elapsed k > timeoutMs then
          some (.error .timedOut, k)
        else
          let s := normalizeStatus (env.responses k)
          if s = "" then
            some (.error .emptyStatus, k + 1)
          else if s ≠ JOB_STATUS_PENDING ∧ s ≠ JOB_STATUS_RUNNING ∧
              s ≠ JOB_STATUS_COMPLETED ∧ s ≠ JOB_STATUS_FAILED then
            some (.error (.unknownStatus s), k + 1)
          else
            pollLoop env timeoutMs fuel s (k + 1)
    else
      some (.ok, k)

/-- `SeleniumBaseApiClient.waitForJobCompletion` (apiClient.ts lines
240–306).  `Number(x)` is the identity on the `number`-typed arguments, so
the normalization steps are identities here. -/
def waitForJobCompletion (env : PollEnv) (initialStatus : Option String)
    (pollingInterval timeout : JSNumber) (fuel : ℕ) :
    Option (PollOutcome × ℕ) :=
  let normalizedPollingInterval := pollingInterval
  let normalizedTimeout := timeout
  if !normalizedPollingInterval.isFinite || normalizedPollingInterval.ltQ 1 then
    some (.error .invalidPollingInterval, 0)
  else if !normalizedTimeout.isFinite || normalizedTimeout.leQ 0 then
    some (.error .invalidTimeout, 0)
  else
    let timeoutMs := normalizedTimeout.toQ * MILLISECONDS_PER_SECOND
    let status0 := normalizeStatus initialStatus
    let status := if status0 = "" then JOB_STATUS_PENDING else status0
    pollLoop env timeoutMs fuel status 0

example :
    pollLoop { responses := fun _ => some "completed", elapsed := fun _ => 0 }
      1000 5 "pending" 0 = some (.ok, 1) := by decide

example :
    pollLoop { responses := fun _ => some " Weird ", elapsed := fun _ => 0 }
      1000 5 "running" 0 = some (.error (.unknownStatus "weird"), 1) := by decide

example :
    waitForJobCompletion { responses := fun _ => some "running", elapsed := fun _ => 0 }
      (some "x") .nan (.finite 600) 3 = some (.error .invalidPollingInterval, 0) := by decide

example :
    waitForJobCompletion { responses := fun _ => some "running", elapsed := fun _ => 0 }
      (some "x") (.finite 5) .posInf 3 = some (.error .invalidTimeout, 0) := by decide

/-- types.ts: `ISeleniumBaseArtifact`. -/
structure ISeleniumBaseArtifact where
  filename : String
  path : String
  type : String
  size : ℕ
deriving DecidableEq

/-- JS object property assignment `m[key] = v` on a string-keyed object,
viewed as an association list: an existing key is updated in place,
otherwise the pair is appended. -/
def jsSetAssoc {β : Type} (m : List (String × β)) (key : String) (v : β) :
    List (String × β) :=
  if m.any (fun p => p.1 = key) then
    m.map (fun p => if p.1 = key then (key, v) else p)
  else
    m ++ [(key, v)]

/-- The `for (const artifact of result.artifacts)` loop of
`downloadAllArtifacts` (apiClient.ts lines 189–191).  `dl` models one
`downloadArtifact` network call (`Except` error = thrown wrapped API
error); `n` counts download requests issued so far. -/
def downloadArtifactsLoop {β : Type} (dl : ISeleniumBaseArtifact → Except String β) :
    List ISeleniumBaseArtifact → List (String × β) → ℕ →
    Except String (List (String × β)) × ℕ
  | [], binaryData, n => (.ok binaryData, n)
  | artifact :: rest, binaryData, n =>
    match dl artifact with
    | .error e => (.error e, n + 1)
    | .ok b => downloadArtifactsLoop dl rest (jsSetAssoc binaryData artifact.filename b) (n + 1)

/-- `SeleniumBaseApiClient.downloadAllArtifacts` (apiClient.ts lines
178–194).  `artifacts` is the `result.artifacts` field, `none` when the
field is missing/null (the `!result.artifacts` check); the second
component of the result is the number of download requests issued. -/
def downloadAllArtifacts {β : Type} (dl : ISeleniumBaseArtifact → Except String β)
    (artifacts : Option (List ISeleniumBaseArtifact)) :
    Except String (List (String × β)) × ℕ :=
  match artifacts with
  | none => (.ok [], 0)
  | some l =>
    if l.length = 0 then (.ok [], 0)
    else downloadArtifactsLoop dl l [] 0

/-- A JavaScript value, as far as the parameter-bag logic inspects one. -/
inductive JsValue
  | str (s : String)
  | num (q : ℚ)
  | boolean (b : Bool)
  | null
  | undef
deriving DecidableEq

/-- types.ts: `ISeleniumBaseSubmitRequest` (the `/submit` payload).  The
`params` bag is kept abstract. -/
structure ISeleniumBaseSubmitRequest (α : Type) where
  script : String
  params : α
  profile : Option String
  attachment_id : Option String
deriving DecidableEq

/-- Payload construction of `SeleniumBaseApiClient.submitJob` (apiClient.ts
lines 96–115): optional fields are added only when the argument is truthy
and non-empty after trimming. -/
def submitJobPayload {α : Type} (pythonCode : String)
    (profile attachmentId : Option String) (params : α) :
    ISeleniumBaseSubmitRequest α :=
  let payload : ISeleniumBaseSubmitRequest α :=
    { script := pythonCode, params := params, profile := none, attachment_id := none }
  let payload :=
    match profile with
    | some p => if p ≠ "" ∧ jsTrim p ≠ "" then { payload with profile := some (jsTrim p) } else payload
    | none => payload
  match attachmentId with
  | some a => if a ≠ "" ∧ jsTrim a ≠ "" then { payload with attachment_id := some (jsTrim a) } else payload
  | none => payload

/-- One entry of the `options.params` fixedCollection: a raw `key` (any JS
value) and a raw `value`. -/
structure ParamEntry where
  key : JsValue
  value : JsValue
deriving DecidableEq

/-- JS object property assignment on an object viewed as a finite map
`String → Option JsValue`. -/
def jsSetField (m : String → Option JsValue) (key : String) (v : JsValue) :
    String → Option JsValue :=
  fun k => if k = key then some v else m k

/-- The body of `buildParamsObject`'s `for` loop (helpers/params.ts lines
10–17): `typeof entry.key === 'string' ? entry.key.trim() : ''`, skip a
falsy key, otherwise assign `params[key] = entry.value`. -/
def applyParamEntry (params : String → Option JsValue) (entry : ParamEntry) :
    String → Option JsValue :=
  let key := match entry.key with
    | .str s => jsTrim s
    | _ => ""
  if key = "" then params else jsSetField params key entry.value

/-- `buildParamsObject` (helpers/params.ts lines 6–20): `raw` is the
`rawParams.values` field (`none` when missing).  The resulting JS object is
modelled as the map `String → Option JsValue`. -/
def buildParamsObject (raw : Option (List ParamEntry)) : String → Option JsValue :=
  let values := raw.getD []
  values.foldl applyParamEntry (fun _ => none)

example :
    buildParamsObject (some [⟨.str " a ", .num 1⟩, ⟨.num 3, .num 2⟩, ⟨.str "a", .num 7⟩,
      ⟨.str "  ", .num 9⟩]) "a" = some (.num 7) := by decide

example : buildParamsObject (some [⟨.str " a ", .num 1⟩]) "b" = none := by decide

/-- A thrown JS error, as far as `getErrorMessage` inspects it: an `Error`
instance (with its `message`), a thrown string, or anything else. -/
inductive JsError
  | errorObj (message : String)
  | stringErr (s : String)
  | other
deriving DecidableEq

/-- `getErrorMessage` (helpers/errors.ts): `Error` instances with a truthy
`message` yield that message; thrown non-blank strings yield themselves;
everything else yields `'Unknown error'`. -/
def getErrorMessage : JsError → String
  | .errorObj message => if message ≠ "" then message else "Unknown error"
  | .stringErr s => if jsTrim s ≠ "" then s else "Unknown error"
  | .other => "Unknown error"

/-- `cleanupWithoutMaskingPrimaryError` (helpers/errors.ts): run the
cleanup, swallow its error and return it as a message instead. -/
def cleanupWithoutMaskingPrimaryError (cleanupResult : Except JsError Unit) :
    Option String :=
  match cleanupResult with
  | .ok _ => none
  | .error e => some (getErrorMessage e)

/-- JS `Array.prototype.join(sep)`. -/
def jsJoin (sep : String) : List String → String
  | [] => ""
  | [x] => x
  | x :: rest => x ++ sep ++ jsJoin sep rest

/-- `typeof x === 'string' ? x.trim() : ''` on an optional string field. -/
def trimOrEmpty : Option String → String
  | some s => jsTrim s
  | none => ""

/-- The failure message built by `executeScriptOperation` when the fetched
result has status `failed` (executeScript.ts lines 219–238).
`resultError` / `stderrLog` are `result.error` / `result.logs?.stderr`
(`none` when missing or not a string); `cleanupResult` is the outcome of
the `cleanupJob` call, consulted only when `cleanJobAfterExecution`. -/
def executeFailedMessage (jobId : String) (resultError stderrLog : Option String)
    (cleanJobAfterExecution : Bool) (cleanupResult : Except JsError Unit) : String :=
  let cleanupErrorMessage : Option String :=
    if cleanJobAfterExecution then cleanupWithoutMaskingPrimaryError cleanupResult
    else none
  let apiError := trimOrEmpty resultError
  let stderr := trimOrEmpty stderrLog
  let cleanupError := match cleanupErrorMessage with
    | some m => if m ≠ "" then "Cleanup also failed: " ++ m else ""
    | none => ""
  let failureDetails := jsJoin "\n\n" ([apiError, stderr, cleanupError].filter (fun v => v ≠ ""))
  if failureDetails ≠ "" then
    "Job " ++ jobId ++ " failed:\n\n" ++ failureDetails
  else
    "Job " ++ jobId ++ " failed."

/-- The error/stderr part of the failure details, independent of cleanup. -/
def primaryFailureDetails (resultError stderrLog : Option String) : String :=
  jsJoin "\n\n"
    ([trimOrEmpty resultError, trimOrEmpty stderrLog].filter (fun v => v ≠ ""))

example :
    executeFailedMessage "j1" (some " boom ") none true (.error (.errorObj "404")) =
      "Job j1 failed:\n\nboom\n\nCleanup also failed: 404" := by decide

example :
    executeFailedMessage "j1" none none true (.ok ()) = "Job j1 failed." := by decide

/-- One entry of the `/jobs` listing. -/
structure JobSummary where
  job_id : String
  status : String
deriving DecidableEq

/-- One entry of the `/profiles` listing. -/
structure ProfileSummary where
  profile_name : String
  job_count : ℕ
deriving DecidableEq

/-- n8n `INodePropertyOptions` (the fields the node fills in). -/
structure INodePropertyOptions where
  name : String
  value : String
deriving DecidableEq

/-- Environment of the load-options methods: the outcome of the credential
lookup (`getCredentials`, yielding the base URL) and of the `listJobs` /
`listProfiles` calls. -/
structure LoadOptionsEnv where
  credentials : Except JsError String
  jobs : Except JsError (List JobSummary)
  profiles : Except JsError (List ProfileSummary)

/-- `loadOptionsMethods.getJobs` (methods/loadOptions.ts lines 14–26): any
error thrown in the `try` block — credential lookup or `listJobs` —
degrades to `[]`. -/
def getJobs (env : LoadOptionsEnv) : List INodePropertyOptions :=
  match env.credentials with
  | .error _ => []
  | .ok _ =>
    match env.jobs with
    | .error _ => []
    | .ok jobs =>
      jobs.map (fun job => { name := job.job_id ++ " (" ++ job.status ++ ")", value := job.job_id })

/-- `loadOptionsMethods.getProfiles` (methods/loadOptions.ts lines 28–40). -/
def getProfiles (env : LoadOptionsEnv) : List INodePropertyOptions :=
  match env.credentials with
  | .error _ => []
  | .ok _ =>
    match env.profiles with
    | .error _ => []
    | .ok profiles =>
      profiles.map (fun profile =>
        { name := profile.profile_name ++ " (" ++ toString profile.job_count ++ " jobs)",
          value := profile.profile_name })

example :
    getJobs { credentials := .ok "http://x", jobs := .ok [⟨"a", "running"⟩],
              profiles := .ok [] } = [{ name := "a (running)", value := "a" }] := by decide

example :
    getProfiles { credentials := .error .other, jobs := .ok [], profiles := .ok [⟨"p", 2⟩] } =
      [] := by decide

/-! ### Lemmas about the polling loop -/

lemma pollLoop_exit (env : PollEnv) (t : ℚ) (fuel k : ℕ) (status : String)
    (h : ¬ (status = JOB_STATUS_PENDING ∨ status = JOB_STATUS_RUNNING)) :
    pollLoop env t fuel status k = some (.ok, k) := by
  cases fuel <;> · rw [pollLoop]; simp [h]

lemma pollLoop_zero (env : PollEnv) (t : ℚ) (k : ℕ) (status : String)
    (h : status = JOB_STATUS_PENDING ∨ status = JOB_STATUS_RUNNING) :
    pollLoop env t 0 status k = none := by
  rw [pollLoop]; simp [h]

lemma pollLoop_step (env : PollEnv) (t : ℚ) (fuel k : ℕ) (status : String)
    (h : status = JOB_STATUS_PENDING ∨ status = JOB_STATUS_RUNNING) :
    pollLoop env t (fuel + 1) status k =
      if env.elapsed k > t then
        some (.error .timedOut, k)
      else if normalizeStatus (env.responses k) = "" then
        some (.error .emptyStatus, k + 1)
      else if normalizeStatus (env.responses k) ≠ JOB_STATUS_PENDING ∧
          normalizeStatus (env.responses k) ≠ JOB_STATUS_RUNNING ∧
          normalizeStatus (env.responses k) ≠ JOB_STATUS_COMPLETED ∧
          normalizeStatus (env.responses k) ≠ JOB_STATUS_FAILED then
        some (.error (.unknownStatus (normalizeStatus (env.responses k))), k + 1)
      else
        pollLoop env t fuel (normalizeStatus (env.responses k)) (k + 1) := by
  conv_lhs => rw [pollLoop]
  simp [h]

lemma pollLoop_no_validation_error (env : PollEnv) (t : ℚ) :
    ∀ (fuel k n : ℕ) (status : String) (out : PollOutcome),
      pollLoop env t fuel status k = some (out, n) →
      out ≠ .error .invalidPollingInterval ∧ out ≠ .error .invalidTimeout := by
  intro fuel
  induction fuel with
  | zero =>
    intro k n status out h
    by_cases hs : status = JOB_STATUS_PENDING ∨ status = JOB_STATUS_RUNNING
    · rw [pollLoop_zero env t k status hs] at h
      exact absurd h (by simp)
    · rw [pollLoop_exit env t 0 k status hs] at h
      obtain ⟨rfl, rfl⟩ : out = .ok ∧ n = k := by
        simpa [Prod.ext_iff, eq_comm] using h
      exact ⟨by simp, by simp⟩
  | succ fuel ih =>
    intro k n status out h
    by_cases hs : status = JOB_STATUS_PENDING ∨ status = JOB_STATUS_RUNNING
    · rw [pollLoop_step env t fuel k status hs] at h
      by_cases hd : env.elapsed k > t
      · rw [if_pos hd] at h
        obtain ⟨rfl, rfl⟩ : out = .error .timedOut ∧ n = k := by
          simpa [Prod.ext_iff, eq_comm] using h
        exact ⟨by simp, by simp⟩
      · rw [if_neg hd] at h
        by_cases he : normalizeStatus (env.responses k) = ""
        · rw [if_pos he] at h
          obtain ⟨rfl, rfl⟩ : out = .error .emptyStatus ∧ n = k + 1 := by
            simpa [Prod.ext_iff, eq_comm] using h
          exact ⟨by simp, by simp⟩
        · rw [if_neg he] at h
          by_cases hu : normalizeStatus (env.responses k) ≠ JOB_STATUS_PENDING ∧
              normalizeStatus (env.responses k) ≠ JOB_STATUS_RUNNING ∧
              normalizeStatus (env.responses k) ≠ JOB_STATUS_COMPLETED ∧
              normalizeStatus (env.responses k) ≠ JOB_STATUS_FAILED
          · rw [if_pos hu] at h
            obtain ⟨rfl, rfl⟩ :
                out = .error (.unknownStatus (normalizeStatus (env.responses k))) ∧
                  n = k + 1 := by
              simpa [Prod.ext_iff, eq_comm] using h
            exact ⟨by simp, by simp⟩
          · rw [if_neg hu] at h
            exact ih (k + 1) n (normalizeStatus (env.responses k)) out h
    · rw [pollLoop_exit env t (fuel + 1) k status hs] at h
      obtain ⟨rfl, rfl⟩ : out = .ok ∧ n = k := by
        simpa [Prod.ext_iff, eq_comm] using h
      exact ⟨by simp, by simp⟩

lemma pollLoop_nonterminal_timedOut (env : PollEnv) (t : ℚ)
    (hresp : ∀ j, normalizeStatus (env.responses j) = JOB_STATUS_PENDING ∨
      normalizeStatus (env.responses j) = JOB_STATUS_RUNNING) :
    ∀ (fuel k n : ℕ) (status : String) (out : PollOutcome),
      status = JOB_STATUS_PENDING ∨ status = JOB_STATUS_RUNNING →
      pollLoop env t fuel status k = some (out, n) →
      out = .error .timedOut := by
  intro fuel
  induction fuel with
  | zero =>
    intro k n status out hs h
    rw [pollLoop_zero env t k status hs] at h
    exact absurd h (by simp)
  | succ fuel ih =>
    intro k n status out hs h
    rw [pollLoop_step env t fuel k status hs] at h
    by_cases hd : env.elapsed k > t
    · rw [if_pos hd] at h
      obtain ⟨rfl, rfl⟩ : out = .error .timedOut ∧ n = k := by
        simpa [Prod.ext_iff, eq_comm] using h
      rfl
    · rw [if_neg hd] at h
      have hne : ¬ normalizeStatus (env.responses k) = "" := by
        rcases hresp k with hk | hk <;> rw [hk] <;> decide
      rw [if_neg hne] at h
      have hknown : ¬ (normalizeStatus (env.responses k) ≠ JOB_STATUS_PENDING ∧
          normalizeStatus (env.responses k) ≠ JOB_STATUS_RUNNING ∧
          normalizeStatus (env.responses k) ≠ JOB_STATUS_COMPLETED ∧
          normalizeStatus (env.responses k) ≠ JOB_STATUS_FAILED) := by
        rcases hresp k with hk | hk <;> rw [hk] <;> decide
      rw [if_neg hknown] at h
      exact ih (k + 1) n (normalizeStatus (env.responses k)) out (hresp k) h

lemma pollLoop_requests_before_deadline (env : PollEnv) (t : ℚ) :
    ∀ (fuel k n : ℕ) (status : String) (out : PollOutcome),
      pollLoop env t fuel status k = some (out, n) →
      ∀ j, k ≤ j → j < n → ¬ env.elapsed j > t := by
  intro fuel
  induction fuel with
  | zero =>
    intro k n status out h j hkj hjn
    by_cases hs : status = JOB_STATUS_PENDING ∨ status = JOB_STATUS_RUNNING
    · rw [pollLoop_zero env t k status hs] at h
      exact absurd h (by simp)
    · rw [pollLoop_exit env t 0 k status hs] at h
      obtain ⟨rfl, rfl⟩ : out = .ok ∧ n = k := by
        simpa [Prod.ext_iff, eq_comm] using h
      exact absurd hjn (by omega)
  | succ fuel ih =>
    intro k n status out h j hkj hjn
    by_cases hs : status = JOB_STATUS_PENDING ∨ status = JOB_STATUS_RUNNING
    · rw [pollLoop_step env t fuel k status hs] at h
      by_cases hd : env.elapsed k > t
      · rw [if_pos hd] at h
        obtain ⟨rfl, rfl⟩ : out = .error .timedOut ∧ n = k := by
          simpa [Prod.ext_iff, eq_comm] using h
        exact absurd hjn (by omega)
      · rw [if_neg hd] at h
        rcases Nat.eq_or_lt_of_le hkj with rfl | hlt
        · exact hd
        · by_cases he : normalizeStatus (env.responses k) = ""
          · rw [if_pos he] at h
            obtain ⟨rfl, rfl⟩ : out = .error .emptyStatus ∧ n = k + 1 := by
              simpa [Prod.ext_iff, eq_comm] using h
            exact absurd hjn (by omega)
          · rw [if_neg he] at h
            by_cases hu : normalizeStatus (env.responses k) ≠ JOB_STATUS_PENDING ∧
                normalizeStatus (env.responses k) ≠ JOB_STATUS_RUNNING ∧
                normalizeStatus (env.responses k) ≠ JOB_STATUS_COMPLETED ∧
                normalizeStatus (env.responses k) ≠ JOB_STATUS_FAILED
            · rw [if_pos hu] at h
              obtain ⟨rfl, rfl⟩ :
                  out = .error (.unknownStatus (normalizeStatus (env.responses k))) ∧
                    n = k + 1 := by
                simpa [Prod.ext_iff, eq_comm] using h
              exact absurd hjn (by omega)
            · rw [if_neg hu] at h
              exact ih (k + 1) n (normalizeStatus (env.responses k)) out h j hlt hjn
    · rw [pollLoop_exit env t (fuel + 1) k status hs] at h
      obtain ⟨rfl, rfl⟩ : out = .ok ∧ n = k := by
        simpa [Prod.ext_iff, eq_comm] using h
      exact absurd hjn (by omega)

/-! ### Claims C1–C5: the polling state machine -/

/-- Claim C1: as soon as the observed (normalized) status of a status
response is `completed` or `failed`, the polling loop exits: no further
status request is issued (the request count stays at `k + 1`, counting the
request that observed the terminal status) and the loop returns normally
(`.ok`) in both cases — it does not raise an error when the status is
`failed`. -/
theorem pollLoop_exits_on_terminal_status (env : PollEnv) (t : ℚ) (fuel k : ℕ)
    (status : String)
    (hs : status = JOB_STATUS_PENDING ∨ status = JOB_STATUS_RUNNING)
    (hd : ¬ env.elapsed k > t)
    (hr : normalizeStatus (env.responses k) = JOB_STATUS_COMPLETED ∨
      normalizeStatus (env.responses k) = JOB_STATUS_FAILED) :
    pollLoop env t (fuel + 1) status k = some (.ok, k + 1) := by
  rw [pollLoop_step env t fuel k status hs, if_neg hd]
  rcases hr with h | h <;>
  · rw [h, if_neg (by decide), if_neg (by decide)]
    exact pollLoop_exit env t fuel (k + 1) _ (by decide)

/-- Witness for C1: a `pending` job whose first status response is
`completed` finishes normally after exactly one status request. -/
theorem pollLoop_exits_on_terminal_status_witness :
    pollLoop { responses := fun _ => some " Completed ", elapsed := fun _ => 0 }
      1000 1 "pending" 0 = some (.ok, 1) :=
  pollLoop_exits_on_terminal_status
    { responses := fun _ => some " Completed ", elapsed := fun _ => 0 }
    1000 0 0 "pending" (by decide) (by decide) (by decide)

/-- Claim C2: `waitForJobCompletion` fails immediately with the
polling-interval validation error when the interval is not finite or `< 1`
(regardless of the timeout), with the timeout validation error when the
interval is valid but the timeout is not finite or `≤ 0` — in both cases
with zero status requests issued — and for valid pairs no validation error
is ever the outcome. -/
theorem waitForJobCompletion_validation (env : PollEnv) (init : Option String)
    (pollingInterval timeout : JSNumber) (fuel : ℕ) :
    ((!pollingInterval.isFinite || pollingInterval.ltQ 1) = true →
      waitForJobCompletion env init pollingInterval timeout fuel =
        some (.error .invalidPollingInterval, 0)) ∧
    ((!pollingInterval.isFinite || pollingInterval.ltQ 1) = false →
      (!timeout.isFinite || timeout.leQ 0) = true →
      waitForJobCompletion env init pollingInterval timeout fuel =
        some (.error .invalidTimeout, 0)) ∧
    ((!pollingInterval.isFinite || pollingInterval.ltQ 1) = false →
      (!timeout.isFinite || timeout.leQ 0) = false →
      ∀ (e : PollError) (n : ℕ),
        e = .invalidPollingInterval ∨ e = .invalidTimeout →
        waitForJobCompletion env init pollingInterval timeout fuel ≠
          some (.error e, n)) := by
  refine ⟨fun h1 => ?_, fun h1 h2 => ?_, fun h1 h2 e n he h => ?_⟩
  · simp only [waitForJobCompletion]
    rw [if_pos h1]
  · simp only [waitForJobCompletion]
    rw [if_neg (by simp [h1]), if_pos h2]
  · simp only [waitForJobCompletion] at h
    rw [if_neg (by simp [h1]), if_neg (by simp [h2])] at h
    have := pollLoop_no_validation_error env
      (timeout.toQ * MILLISECONDS_PER_SECOND) fuel 0 n _ (.error e) h
    rcases he with rfl | rfl
    · exact this.1 rfl
    · exact this.2 rfl

/-- Witness for C2: NaN interval fails with the interval error, interval 5
with timeout 0 fails with the timeout error, and the valid pair (5, 600)
never produces a validation error. -/
theorem waitForJobCompletion_validation_witness :
    (waitForJobCompletion { responses := fun _ => some "running", elapsed := fun _ => 0 }
      (some "running") .nan (.finite 600) 1 = some (.error .invalidPollingInterval, 0)) ∧
    (waitForJobCompletion { responses := fun _ => some "running", elapsed := fun _ => 0 }
      (some "running") (.finite 5) (.finite 0) 1 = some (.error .invalidTimeout, 0)) ∧
    (∀ (e : PollError) (n : ℕ),
      e = .invalidPollingInterval ∨ e = .invalidTimeout →
      waitForJobCompletion { responses := fun _ => some "running", elapsed := fun _ => 0 }
        (some "running") (.finite 5) (.finite 600) 1 ≠ some (.error e, n)) :=
  ⟨(waitForJobCompletion_validation _ _ _ _ _).1 (by decide),
   (waitForJobCompletion_validation _ _ _ _ _).2.1 (by decide) (by decide),
   (waitForJobCompletion_validation _ _ _ _ _).2.2 (by decide) (by decide)⟩

/-- Claim C3: (a) in any iteration entered with a non-terminal status, if
the observed elapsed time strictly exceeds the timeout in milliseconds the
loop fails with the timeout error without issuing the iteration's status
request; (b) for a status sequence that never leaves `pending`/`running`,
any outcome the loop produces is the timeout error (never a protocol,
unknown-status, or normal outcome); (c) every status request issued (index
`j` below the final request count) was issued from an iteration whose
observed elapsed time did not exceed the deadline. -/
theorem pollLoop_timeout_behaviour (env : PollEnv) (t : ℚ) (fuel k : ℕ)
    (status : String) :
    ((status = JOB_STATUS_PENDING ∨ status = JOB_STATUS_RUNNING) →
      env.elapsed k > t →
      pollLoop env t (fuel + 1) status k = some (.error .timedOut, k)) ∧
    ((∀ j, normalizeStatus (env.responses j) = JOB_STATUS_PENDING ∨
        normalizeStatus (env.responses j) = JOB_STATUS_RUNNING) →
      (status = JOB_STATUS_PENDING ∨ status = JOB_STATUS_RUNNING) →
      ∀ (out : PollOutcome) (n : ℕ),
        pollLoop env t fuel status k = some (out, n) → out = .error .timedOut) ∧
    (∀ (out : PollOutcome) (n : ℕ),
      pollLoop env t fuel status k = some (out, n) →
      ∀ j, k ≤ j → j < n → ¬ env.elapsed j > t) := by
  refine ⟨fun hs hd => ?_, fun hresp hs out n h => ?_, fun out n h => ?_⟩
  · rw [pollLoop_step env t fuel k status hs, if_pos hd]
  · exact pollLoop_nonterminal_timedOut env t hresp fuel k n status out hs h
  · exact pollLoop_requests_before_deadline env t fuel k n status out h

/-- Witness for C3: with the deadline already exceeded at entry the loop
times out with zero requests; with a server that always reports `running`
the only outcome is the timeout error; and in a run that issued one
request, that request was issued before the deadline was exceeded. -/
theorem pollLoop_timeout_behaviour_witness :
    (pollLoop { responses := fun _ => some "running", elapsed := fun _ => 2000 }
      1000 1 "running" 0 = some (.error .timedOut, 0)) ∧
    (∀ (out : PollOutcome) (n : ℕ),
      pollLoop { responses := fun _ => some "running",
                 elapsed := fun j => if j = 0 then 0 else 2000 }
        1000 2 "running" 0 = some (out, n) → out = .error .timedOut) ∧
    (∀ j, 0 ≤ j → j < 1 →
      ¬ ({ responses := fun _ => some "running",
           elapsed := fun j => if j = 0 then 0 else 2000 } : PollEnv).elapsed j > 1000) :=
  ⟨(pollLoop_timeout_behaviour _ 1000 0 0 "running").1 (by decide) (by decide),
   (pollLoop_timeout_behaviour _ 1000 2 0 "running").2.1
     (fun _ => Or.inr (show normalizeStatus (some "running") = JOB_STATUS_RUNNING by decide))
     (by decide),
   (pollLoop_timeout_behaviour _ 1000 2 0 "running").2.2
     (.error .timedOut) 1 (by decide)⟩

/-- Claim C4: for the status response observed in an iteration entered
with a non-terminal status and within the deadline: an (after
normalization) empty status fails with the empty-status protocol error; a
non-empty status outside the four known values fails with the
unknown-status error; and a known status raises neither error for that
response — the loop simply continues (or exits normally) with it. -/
theorem pollLoop_response_validation (env : PollEnv) (t : ℚ) (fuel k : ℕ)
    (status : String)
    (hs : status = JOB_STATUS_PENDING ∨ status = JOB_STATUS_RUNNING)
    (hd : ¬ env.elapsed k > t) :
    (normalizeStatus (env.responses k) = "" →
      pollLoop env t (fuel + 1) status k = some (.error .emptyStatus, k + 1)) ∧
    (normalizeStatus (env.responses k) ≠ "" →
      normalizeStatus (env.responses k) ≠ JOB_STATUS_PENDING →
      normalizeStatus (env.responses k) ≠ JOB_STATUS_RUNNING →
      normalizeStatus (env.responses k) ≠ JOB_STATUS_COMPLETED →
      normalizeStatus (env.responses k) ≠ JOB_STATUS_FAILED →
      pollLoop env t (fuel + 1) status k =
        some (.error (.unknownStatus (normalizeStatus (env.responses k))), k + 1)) ∧
    ((normalizeStatus (env.responses k) = JOB_STATUS_PENDING ∨
      normalizeStatus (env.responses k) = JOB_STATUS_RUNNING ∨
      normalizeStatus (env.responses k) = JOB_STATUS_COMPLETED ∨
      normalizeStatus (env.responses k) = JOB_STATUS_FAILED) →
      pollLoop env t (fuel + 1) status k =
        pollLoop env t fuel (normalizeStatus (env.responses k)) (k + 1)) := by
  refine ⟨fun he => ?_, fun he h1 h2 h3 h4 => ?_, fun hknown => ?_⟩
  · rw [pollLoop_step env t fuel k status hs, if_neg hd, if_pos he]
  · rw [pollLoop_step env t fuel k status hs, if_neg hd, if_neg he,
      if_pos ⟨h1, h2, h3, h4⟩]
  · rcases hknown with h | h | h | h <;>
    · rw [pollLoop_step env t fuel k status hs, if_neg hd, h,
        if_neg (by decide), if_neg (by decide)]

/-- Witness for C4: a whitespace-only status fails with the empty-status
error, status `" LOADING "` fails with the unknown-status error
`"loading"`, and status `"running"` continues the loop. -/
theorem pollLoop_response_validation_witness :
    (pollLoop { responses := fun _ => some "   ", elapsed := fun _ => 0 }
      1000 1 "pending" 0 = some (.error .emptyStatus, 1)) ∧
    (pollLoop { responses := fun _ => some " LOADING ", elapsed := fun _ => 0 }
      1000 1 "pending" 0 = some (.error (.unknownStatus (normalizeStatus (some " LOADING "))), 1)) ∧
    (pollLoop { responses := fun _ => some "running", elapsed := fun _ => 0 }
      1000 1 "pending" 0 =
      pollLoop { responses := fun _ => some "running", elapsed := fun _ => 0 }
        1000 0 (normalizeStatus (some "running")) 1) :=
  ⟨(pollLoop_response_validation _ 1000 0 0 "pending" (by decide) (by decide)).1 (by decide),
   (pollLoop_response_validation _ 1000 0 0 "pending" (by decide) (by decide)).2.1
     (by decide) (by decide) (by decide) (by decide) (by decide),
   (pollLoop_response_validation _ 1000 0 0 "pending" (by decide) (by decide)).2.2
     (Or.inr (Or.inl (by decide)))⟩

/-- Claim C5: with valid configuration, `waitForJobCompletion` normalizes
the initial status by trimming and lowercasing; a missing/empty initial
status enters the polling loop as `pending`, and an initial status that
normalizes to `completed` or `failed` returns normally at once with zero
status requests. -/
theorem waitForJobCompletion_initial_status (env : PollEnv) (init : Option String)
    (pollingInterval timeout : JSNumber) (fuel : ℕ)
    (h1 : (!pollingInterval.isFinite || pollingInterval.ltQ 1) = false)
    (h2 : (!timeout.isFinite || timeout.leQ 0) = false) :
    (normalizeStatus init = "" →
      waitForJobCompletion env init pollingInterval timeout fuel =
        pollLoop env (timeout.toQ * MILLISECONDS_PER_SECOND) fuel JOB_STATUS_PENDING 0) ∧
    (normalizeStatus init = JOB_STATUS_COMPLETED →
      waitForJobCompletion env init pollingInterval timeout fuel = some (.ok, 0)) ∧
    (normalizeStatus init = JOB_STATUS_FAILED →
      waitForJobCompletion env init pollingInterval timeout fuel = some (.ok, 0)) := by
  refine ⟨fun he => ?_, fun hc => ?_, fun hf => ?_⟩
  · simp only [waitForJobCompletion]
    rw [if_neg (by simp [h1]), if_neg (by simp [h2]), he, if_pos rfl]
  · simp only [waitForJobCompletion]
    rw [if_neg (by simp [h1]), if_neg (by simp [h2]), hc, if_neg (by decide)]
    exact pollLoop_exit env _ fuel 0 _ (by decide)
  · simp only [waitForJobCompletion]
    rw [if_neg (by simp [h1]), if_neg (by simp [h2]), hf, if_neg (by decide)]
    exact pollLoop_exit env _ fuel 0 _ (by decide)

/-- Witness for C5: a missing initial status enters the loop as `pending`;
the initial status `" FAILED "` returns normally at once with zero
requests. -/
theorem waitForJobCompletion_initial_status_witness :
    (waitForJobCompletion { responses := fun _ => some "running", elapsed := fun _ => 0 }
      none (.finite 5) (.finite 600) 2 =
      pollLoop { responses := fun _ => some "running", elapsed := fun _ => 0 }
        ((JSNumber.finite 600).toQ * MILLISECONDS_PER_SECOND) 2 JOB_STATUS_PENDING 0) ∧
    (waitForJobCompletion { responses := fun _ => some "running", elapsed := fun _ => 0 }
      (some " FAILED ") (.finite 5) (.finite 600) 2 = some (.ok, 0)) :=
  ⟨(waitForJobCompletion_initial_status _ none (.finite 5) (.finite 600) 2
      (by decide) (by decide)).1 (by decide),
   (waitForJobCompletion_initial_status _ (some " FAILED ") (.finite 5) (.finite 600) 2
      (by decide) (by decide)).2.2 (by decide)⟩

/-! ### Claim C6: downloadAllArtifacts -/

/-- The mapping built by a fully successful artifact-download loop: each
artifact's binary stored under its filename, in list order. -/
def collectArtifacts {β : Type} (dl : ISeleniumBaseArtifact → Except String β)
    (l : List ISeleniumBaseArtifact) (acc : List (String × β)) : List (String × β) :=
  l.foldl
    (fun m a =>
      match dl a with
      | .ok b => jsSetAssoc m a.filename b
      | .error _ => m)
    acc

lemma downloadArtifactsLoop_all_ok {β : Type} (dl : ISeleniumBaseArtifact → Except String β) :
    ∀ (l : List ISeleniumBaseArtifact) (acc : List (String × β)) (n : ℕ),
      (∀ a ∈ l, (dl a).isOk) →
      downloadArtifactsLoop dl l acc n = (.ok (collectArtifacts dl l acc), n + l.length) := by
  intro l
  induction l with
  | nil => intro acc n _; simp [downloadArtifactsLoop, collectArtifacts]
  | cons a rest ih =>
    intro acc n h
    have ha : (dl a).isOk := h a (List.mem_cons_self a rest)
    obtain ⟨b, hb⟩ : ∃ b, dl a = .ok b := by
      cases hdl : dl a with
      | ok b => exact ⟨b, rfl⟩
      | error e => rw [hdl] at ha; exact absurd ha (by simp [Except.isOk, Except.toBool])
    rw [downloadArtifactsLoop, hb]
    dsimp only
    rw [ih (jsSetAssoc acc a.filename b) (n + 1) (fun x hx => h x (List.mem_cons_of_mem a hx))]
    simp [collectArtifacts, hb, List.length_cons]
    omega

lemma downloadArtifactsLoop_first_error {β : Type}
    (dl : ISeleniumBaseArtifact → Except String β) (e : String)
    (a : ISeleniumBaseArtifact) (post : List ISeleniumBaseArtifact) (he : dl a = .error e) :
    ∀ (pre : List ISeleniumBaseArtifact) (acc : List (String × β)) (n : ℕ),
      (∀ x ∈ pre, (dl x).isOk) →
      downloadArtifactsLoop dl (pre ++ a :: post) acc n = (.error e, n + pre.length + 1) := by
  intro pre
  induction pre with
  | nil => intro acc n _; simp [downloadArtifactsLoop, he]
  | cons x rest ih =>
    intro acc n h
    have hx : (dl x).isOk := h x (List.mem_cons_self x rest)
    obtain ⟨b, hb⟩ : ∃ b, dl x = .ok b := by
      cases hdl : dl x with
      | ok b => exact ⟨b, rfl⟩
      | error oops => rw [hdl] at hx; exact absurd hx (by simp [Except.isOk, Except.toBool])
    rw [List.cons_append, downloadArtifactsLoop, hb]
    dsimp only
    rw [ih (jsSetAssoc acc x.filename b) (n + 1) (fun y hy => h y (List.mem_cons_of_mem x hy))]
    simp [List.length_cons]
    omega

/-- Claim C6: `downloadAllArtifacts` returns the empty mapping with zero
download requests when the artifacts field is missing or empty; when every
download succeeds it issues one request per artifact (sequentially, in
list order) and returns the mapping keyed by filename; and a failing
download aborts the whole operation with that error after the requests up
to and including the failing one — no partial mapping is returned. -/
theorem downloadAllArtifacts_spec {β : Type} (dl : ISeleniumBaseArtifact → Except String β) :
    (downloadAllArtifacts dl none = (.ok [], 0)) ∧
    (downloadAllArtifacts dl (some []) = (.ok [], 0)) ∧
    (∀ l, (∀ a ∈ l, (dl a).isOk) →
      downloadAllArtifacts dl (some l) = (.ok (collectArtifacts dl l []), l.length)) ∧
    (∀ (pre : List ISeleniumBaseArtifact) (a : ISeleniumBaseArtifact)
        (post : List ISeleniumBaseArtifact) (e : String),
      (∀ x ∈ pre, (dl x).isOk) → dl a = .error e →
      downloadAllArtifacts dl (some (pre ++ a :: post)) = (.error e, pre.length + 1)) := by
  refine ⟨rfl, rfl, fun l h => ?_, fun pre a post e h he => ?_⟩
  · cases l with
    | nil => rfl
    | cons x rest =>
      rw [downloadAllArtifacts, if_neg (by simp)]
      simpa using downloadArtifactsLoop_all_ok dl (x :: rest) [] 0 h
  · rw [downloadAllArtifacts, if_neg (by simp)]
    simpa using downloadArtifactsLoop_first_error dl e a post he pre [] 0 h

/-- A sample downloader for the C6 witness: fails exactly on the filename
`bad.png`. -/
def sampleDownload : ISeleniumBaseArtifact → Except String ℕ :=
  fun a => if a.filename = "bad.png" then .error "boom" else .ok a.size

/-- Witness for C6: two successful downloads build the filename-keyed
mapping with two requests; a failure on the second of three artifacts
aborts with that error after two requests. -/
theorem downloadAllArtifacts_spec_witness :
    (downloadAllArtifacts sampleDownload
      (some [⟨"a.png", "p", "image/png", 3⟩, ⟨"b.txt", "q", "text/plain", 5⟩]) =
      (.ok (collectArtifacts sampleDownload
        [⟨"a.png", "p", "image/png", 3⟩, ⟨"b.txt", "q", "text/plain", 5⟩] []), 2)) ∧
    (downloadAllArtifacts sampleDownload
      (some ([⟨"a.png", "p", "image/png", 3⟩] ++
        ⟨"bad.png", "q", "image/png", 9⟩ :: [⟨"c.txt", "r", "text/plain", 5⟩])) =
      (.error "boom", 2)) :=
  ⟨(downloadAllArtifacts_spec sampleDownload).2.2.1
      [⟨"a.png", "p", "image/png", 3⟩, ⟨"b.txt", "q", "text/plain", 5⟩] (by decide),
   (downloadAllArtifacts_spec sampleDownload).2.2.2
      [⟨"a.png", "p", "image/png", 3⟩] ⟨"bad.png", "q", "image/png", 9⟩
      [⟨"c.txt", "r", "text/plain", 5⟩] "boom" (by decide) (by rfl)⟩

/-! ### Claim C7: the failed-job error message never masks the primary error -/

lemma strAppend_assoc (a b c : String) : a ++ b ++ c = a ++ (b ++ c) := by
  apply String.ext
  simp [String.data_append]

lemma strAppend_left_ne_empty (a b : String) (h : a ≠ "") : a ++ b ≠ "" := by
  intro hab
  apply h
  apply String.ext
  have := congrArg String.data hab
  simp [String.data_append] at this
  simp [this.1]

lemma getErrorMessage_ne_empty (e : JsError) : getErrorMessage e ≠ "" := by
  cases e with
  | errorObj m => by_cases hm : m = "" <;> simp [getErrorMessage, hm]
  | stringErr s =>
    by_cases hs : jsTrim s = ""
    · simp [getErrorMessage, hs]
    · simp only [getErrorMessage, ne_eq, hs, not_false_eq_true, if_true]
      intro h
      rw [h] at hs
      exact hs rfl
  | other => simp [getErrorMessage]


/-- Claim C7: in the execute-script handler's failed-result branch with
cleanup enabled, a cleanup failure never replaces the primary failure: the
message always starts with the job-failure text (`Job <id> failed` plus
the error/stderr details) and the cleanup error is only appended at the
end as `Cleanup also failed: …`; when cleanup succeeds the message is
built from the job id and error/stderr details alone, with no cleanup
text. -/
theorem executeScript_cleanup_never_masks (jobId : String)
    (resultError stderrLog : Option String) (e : JsError) :
    (executeFailedMessage jobId resultError stderrLog true (.error e) =
      (if primaryFailureDetails resultError stderrLog ≠ "" then
        "Job " ++ jobId ++ " failed:\n\n" ++
          primaryFailureDetails resultError stderrLog ++ "\n\n"
      else
        "Job " ++ jobId ++ " failed:\n\n") ++
      ("Cleanup also failed: " ++ getErrorMessage e)) ∧
    (executeFailedMessage jobId resultError stderrLog true (.ok ()) =
      if primaryFailureDetails resultError stderrLog ≠ "" then
        "Job " ++ jobId ++ " failed:\n\n" ++ primaryFailureDetails resultError stderrLog
      else
        "Job " ++ jobId ++ " failed.") := by
  have hc : getErrorMessage e ≠ "" := getErrorMessage_ne_empty e
  have htext : ("Cleanup also failed: " ++ getErrorMessage e) ≠ "" :=
    strAppend_left_ne_empty _ _ (by decide)
  constructor
  · simp only [executeFailedMessage, cleanupWithoutMaskingPrimaryError, if_true]
    rw [if_pos hc]
    by_cases hA : trimOrEmpty resultError = "" <;> by_cases hB : trimOrEmpty stderrLog = ""
    · rw [show List.filter (fun v => decide (v ≠ ""))
          [trimOrEmpty resultError, trimOrEmpty stderrLog,
            "Cleanup also failed: " ++ getErrorMessage e] =
          ["Cleanup also failed: " ++ getErrorMessage e] by simp [hA, hB, htext]]
      rw [show primaryFailureDetails resultError stderrLog = "" by
        simp [primaryFailureDetails, hA, hB, jsJoin]]
      rw [if_pos (show jsJoin "\n\n" ["Cleanup also failed: " ++ getErrorMessage e] ≠ ""
          from htext),
        if_neg (show ¬ ("" : String) ≠ "" by simp)]
      simp [jsJoin, strAppend_assoc]
    · rw [show List.filter (fun v => decide (v ≠ ""))
          [trimOrEmpty resultError, trimOrEmpty stderrLog,
            "Cleanup also failed: " ++ getErrorMessage e] =
          [trimOrEmpty stderrLog, "Cleanup also failed: " ++ getErrorMessage e] by
            simp [hA, hB, htext]]
      rw [show primaryFailureDetails resultError stderrLog = trimOrEmpty stderrLog by
        simp [primaryFailureDetails, hA, hB, jsJoin]]
      rw [if_pos (show jsJoin "\n\n"
            [trimOrEmpty stderrLog, "Cleanup also failed: " ++ getErrorMessage e] ≠ ""
          from strAppend_left_ne_empty _ _ (strAppend_left_ne_empty _ _ hB)),
        if_pos hB]
      simp [jsJoin, strAppend_assoc]
    · rw [show List.filter (fun v => decide (v ≠ ""))
          [trimOrEmpty resultError, trimOrEmpty stderrLog,
            "Cleanup also failed: " ++ getErrorMessage e] =
          [trimOrEmpty resultError, "Cleanup also failed: " ++ getErrorMessage e] by
            simp [hA, hB, htext]]
      rw [show primaryFailureDetails resultError stderrLog = trimOrEmpty resultError by
        simp [primaryFailureDetails, hA, hB, jsJoin]]
      rw [if_pos (show jsJoin "\n\n"
            [trimOrEmpty resultError, "Cleanup also failed: " ++ getErrorMessage e] ≠ ""
          from strAppend_left_ne_empty _ _ (strAppend_left_ne_empty _ _ hA)),
        if_pos hA]
      simp [jsJoin, strAppend_assoc]
    · rw [show List.filter (fun v => decide (v ≠ ""))
          [trimOrEmpty resultError, trimOrEmpty stderrLog,
            "Cleanup also failed: " ++ getErrorMessage e] =
          [trimOrEmpty resultError, trimOrEmpty stderrLog,
            "Cleanup also failed: " ++ getErrorMessage e] by
            simp [hA, hB, htext]]
      rw [show primaryFailureDetails resultError stderrLog =
          trimOrEmpty resultError ++ "\n\n" ++ trimOrEmpty stderrLog by
        simp [primaryFailureDetails, hA, hB, jsJoin]]
      rw [if_pos (show jsJoin "\n\n"
            [trimOrEmpty resultError, trimOrEmpty stderrLog,
              "Cleanup also failed: " ++ getErrorMessage e] ≠ ""
          from strAppend_left_ne_empty _ _ (strAppend_left_ne_empty _ _ hA)),
        if_pos (strAppend_left_ne_empty _ _ (strAppend_left_ne_empty _ _ hA))]
      simp [jsJoin, strAppend_assoc]
  · simp only [executeFailedMessage, cleanupWithoutMaskingPrimaryError, if_true]
    by_cases hA : trimOrEmpty resultError = "" <;> by_cases hB : trimOrEmpty stderrLog = ""
    · rw [show List.filter (fun v => decide (v ≠ ""))
          [trimOrEmpty resultError, trimOrEmpty stderrLog, ""] = [] by simp [hA, hB]]
      rw [show primaryFailureDetails resultError stderrLog = "" by
        simp [primaryFailureDetails, hA, hB, jsJoin]]
      rw [if_neg (show ¬ jsJoin "\n\n" ([] : List String) ≠ "" by simp [jsJoin]),
        if_neg (show ¬ ("" : String) ≠ "" by simp)]
    · rw [show List.filter (fun v => decide (v ≠ ""))
          [trimOrEmpty resultError, trimOrEmpty stderrLog, ""] =
          [trimOrEmpty stderrLog] by simp [hA, hB]]
      rw [show primaryFailureDetails resultError stderrLog = trimOrEmpty stderrLog by
        simp [primaryFailureDetails, hA, hB, jsJoin]]
      rw [if_pos (show jsJoin "\n\n" [trimOrEmpty stderrLog] ≠ "" from hB),
        if_pos hB]
      simp [jsJoin]
    · rw [show List.filter (fun v => decide (v ≠ ""))
          [trimOrEmpty resultError, trimOrEmpty stderrLog, ""] =
          [trimOrEmpty resultError] by simp [hA, hB]]
      rw [show primaryFailureDetails resultError stderrLog = trimOrEmpty resultError by
        simp [primaryFailureDetails, hA, hB, jsJoin]]
      rw [if_pos (show jsJoin "\n\n" [trimOrEmpty resultError] ≠ "" from hA),
        if_pos hA]
      simp [jsJoin]
    · rw [show List.filter (fun v => decide (v ≠ ""))
          [trimOrEmpty resultError, trimOrEmpty stderrLog, ""] =
          [trimOrEmpty resultError, trimOrEmpty stderrLog] by simp [hA, hB]]
      rw [show primaryFailureDetails resultError stderrLog =
          trimOrEmpty resultError ++ "\n\n" ++ trimOrEmpty stderrLog by
        simp [primaryFailureDetails, hA, hB, jsJoin]]
      rw [if_pos (show jsJoin "\n\n" [trimOrEmpty resultError, trimOrEmpty stderrLog] ≠ ""
          from strAppend_left_ne_empty _ _ (strAppend_left_ne_empty _ _ hA)),
        if_pos (strAppend_left_ne_empty _ _ (strAppend_left_ne_empty _ _ hA))]
      simp [jsJoin]

/-! ### Claim C8: list population degrades to an empty list -/

/-- Claim C8: any failure while populating the job or profile selection
lists — credential lookup, `listJobs`, or `listProfiles` — makes `getJobs`
/ `getProfiles` return the empty list instead of propagating the error;
on success they return one entry per job/profile, in the order received
from the server. -/
theorem loadOptions_degrade_to_empty (env : LoadOptionsEnv) :
    (∀ e, env.credentials = .error e → getJobs env = [] ∧ getProfiles env = []) ∧
    (∀ e, env.jobs = .error e → getJobs env = []) ∧
    (∀ e, env.profiles = .error e → getProfiles env = []) ∧
    (∀ baseUrl jobs, env.credentials = .ok baseUrl → env.jobs = .ok jobs →
      getJobs env = jobs.map (fun job =>
        { name := job.job_id ++ " (" ++ job.status ++ ")", value := job.job_id })) ∧
    (∀ baseUrl profiles, env.credentials = .ok baseUrl → env.profiles = .ok profiles →
      getProfiles env = profiles.map (fun profile =>
        { name := profile.profile_name ++ " (" ++ toString profile.job_count ++ " jobs)",
          value := profile.profile_name })) := by
  refine ⟨fun e he => ?_, fun e he => ?_, fun e he => ?_,
    fun baseUrl jobs hc hj => ?_, fun baseUrl profiles hc hp => ?_⟩
  · exact ⟨by simp [getJobs, he], by simp [getProfiles, he]⟩
  · cases hc : env.credentials with
    | error c => simp [getJobs, hc]
    | ok c => simp [getJobs, hc, he]
  · cases hc : env.credentials with
    | error c => simp [getProfiles, hc]
    | ok c => simp [getProfiles, hc, he]
  · simp [getJobs, hc, hj]
  · simp [getProfiles, hc, hp]

/-- Witness for C8: a failing `listJobs` yields an empty job list, failing
credentials yield empty lists for both, and a successful profile listing
maps one entry per profile. -/
theorem loadOptions_degrade_to_empty_witness :
    (getJobs { credentials := .ok "http://u", jobs := .error .other,
               profiles := .ok [⟨"p", 2⟩] } = []) ∧
    (getJobs { credentials := .error .other, jobs := .ok [⟨"a", "running"⟩],
               profiles := .ok [] } = []) ∧
    (getProfiles { credentials := .ok "http://u", jobs := .error .other,
                   profiles := .ok [⟨"p", 2⟩] } =
      ([⟨"p", 2⟩] : List ProfileSummary).map (fun profile =>
        { name := profile.profile_name ++ " (" ++ toString profile.job_count ++ " jobs)",
          value := profile.profile_name })) :=
  ⟨(loadOptions_degrade_to_empty _).2.1 .other rfl,
   ((loadOptions_degrade_to_empty _).1 .other rfl).1,
   (loadOptions_degrade_to_empty _).2.2.2.2 "http://u" [⟨"p", 2⟩] rfl rfl⟩

/-! ### Claim C9: the submit payload -/

lemma jsTrim_ne_empty_imp {p : String} (h : jsTrim p ≠ "") : p ≠ "" := by
  intro hp
  rw [hp] at h
  exact h rfl

/-- Claim C9: the `/submit` payload always carries the script verbatim and
the params bag; it carries `profile` exactly when the profile argument is
present and non-empty after trimming (with the trimmed value), and
likewise `attachment_id` — a whitespace-only profile or attachment id is
never sent. -/
theorem submitJob_payload_fields {α : Type} (pythonCode : String)
    (profile attachmentId : Option String) (params : α) :
    ((submitJobPayload pythonCode profile attachmentId params).script = pythonCode) ∧
    ((submitJobPayload pythonCode profile attachmentId params).params = params) ∧
    (∀ v, (submitJobPayload pythonCode profile attachmentId params).profile = some v ↔
      ∃ p, profile = some p ∧ jsTrim p ≠ "" ∧ v = jsTrim p) ∧
    (∀ v, (submitJobPayload pythonCode profile attachmentId params).attachment_id = some v ↔
      ∃ a, attachmentId = some a ∧ jsTrim a ≠ "" ∧ v = jsTrim a) := by
  rcases profile with _ | p <;> rcases attachmentId with _ | a
  · simp [submitJobPayload]
  · by_cases ha : jsTrim a = ""
    · have hca : ¬ (a ≠ "" ∧ jsTrim a ≠ "") := fun h => h.2 ha
      simp [submitJobPayload, hca, ha]
    · have hca : a ≠ "" ∧ jsTrim a ≠ "" := ⟨jsTrim_ne_empty_imp ha, ha⟩
      simp [submitJobPayload, hca.1, hca.2, ha, Ne.symm ha, eq_comm]
  · by_cases hp : jsTrim p = ""
    · have hcp : ¬ (p ≠ "" ∧ jsTrim p ≠ "") := fun h => h.2 hp
      simp [submitJobPayload, hcp, hp]
    · have hcp : p ≠ "" ∧ jsTrim p ≠ "" := ⟨jsTrim_ne_empty_imp hp, hp⟩
      simp [submitJobPayload, hcp.1, hcp.2, hp, Ne.symm hp, eq_comm]
  · by_cases hp : jsTrim p = "" <;> by_cases ha : jsTrim a = ""
    · have hcp : ¬ (p ≠ "" ∧ jsTrim p ≠ "") := fun h => h.2 hp
      have hca : ¬ (a ≠ "" ∧ jsTrim a ≠ "") := fun h => h.2 ha
      simp [submitJobPayload, hcp, hca, hp, ha]
    · have hcp : ¬ (p ≠ "" ∧ jsTrim p ≠ "") := fun h => h.2 hp
      have hca : a ≠ "" ∧ jsTrim a ≠ "" := ⟨jsTrim_ne_empty_imp ha, ha⟩
      simp [submitJobPayload, hcp, hca.1, hca.2, hp, ha, Ne.symm ha, eq_comm]
    · have hcp : p ≠ "" ∧ jsTrim p ≠ "" := ⟨jsTrim_ne_empty_imp hp, hp⟩
      have hca : ¬ (a ≠ "" ∧ jsTrim a ≠ "") := fun h => h.2 ha
      simp [submitJobPayload, hcp.1, hcp.2, hca, hp, ha, Ne.symm hp, eq_comm]
    · have hcp : p ≠ "" ∧ jsTrim p ≠ "" := ⟨jsTrim_ne_empty_imp hp, hp⟩
      have hca : a ≠ "" ∧ jsTrim a ≠ "" := ⟨jsTrim_ne_empty_imp ha, ha⟩
      simp [submitJobPayload, hcp.1, hcp.2, hca.1, hca.2, hp, ha, Ne.symm hp, Ne.symm ha, eq_comm]

/-- Witness for C9: a padded profile is sent trimmed, a whitespace-only
attachment id is not sent. -/
theorem submitJob_payload_fields_witness :
    ((submitJobPayload "code" (some " myProfile ") (some "   ") (5 : ℕ)).profile =
      some "myProfile") ∧
    (¬ ∃ v, (submitJobPayload "code" (some " myProfile ") (some "   ") (5 : ℕ)).attachment_id =
      some v) :=
  ⟨((submitJob_payload_fields "code" (some " myProfile ") (some "   ") (5 : ℕ)).2.2.1
      "myProfile").mpr ⟨" myProfile ", rfl, by decide, by decide⟩,
   fun hv => by
    obtain ⟨v, hv⟩ := hv
    obtain ⟨a, ha, hne, -⟩ :=
      ((submitJob_payload_fields "code" (some " myProfile ") (some "   ") (5 : ℕ)).2.2.2
        v).mp hv
    rw [show a = "   " from (Option.some_inj.mp ha).symm] at hne
    exact hne (by decide)⟩

/-! ### Claim C10: buildParamsObject -/

/-- The key under which an entry is stored, when it has one: a string key
that is non-empty after trimming, trimmed. -/
def paramEntryKey (entry : ParamEntry) : Option String :=
  match entry.key with
  | .str s => if jsTrim s = "" then none else some (jsTrim s)
  | _ => none

lemma applyParamEntry_lookup (params : String → Option JsValue) (entry : ParamEntry)
    (k : String) :
    applyParamEntry params entry k =
      if paramEntryKey entry = some k then some entry.value else params k := by
  cases hk : entry.key with
  | str s =>
    by_cases hs : jsTrim s = ""
    · simp [applyParamEntry, paramEntryKey, hk, hs]
    · by_cases hsk : jsTrim s = k
      · have hk2 : ¬ k = "" := hsk ▸ hs
        simp [applyParamEntry, paramEntryKey, jsSetField, hk, hs, hsk, hk2]
      · simp [applyParamEntry, paramEntryKey, jsSetField, hk, hs, hsk]
        exact fun h => absurd h.symm hsk
  | num q => simp [applyParamEntry, paramEntryKey, hk]
  | boolean b => simp [applyParamEntry, paramEntryKey, hk]
  | null => simp [applyParamEntry, paramEntryKey, hk]
  | undef => simp [applyParamEntry, paramEntryKey, hk]

lemma foldl_applyParamEntry_lookup (k : String) :
    ∀ (l : List ParamEntry) (init : String → Option JsValue),
      (l.foldl applyParamEntry init) k =
        match l.reverse.find? (fun e => paramEntryKey e = some k) with
        | some e => some e.value
        | none => init k := by
  intro l
  induction l with
  | nil => intro init; simp
  | cons e rest ih =>
    intro init
    rw [List.foldl_cons, ih (applyParamEntry init e), List.reverse_cons, List.find?_append]
    cases hf : rest.reverse.find? (fun e => paramEntryKey e = some k) with
    | some hit => simp [Option.or]
    | none =>
      simp only [Option.or]
      by_cases hp : paramEntryKey e = some k
      · simp [List.find?, hp, applyParamEntry_lookup]
      · simp [List.find?, hp, applyParamEntry_lookup]

/-- Claim C10: the params object contains exactly the entries whose key is
a string that is non-empty after trimming, stored under the trimmed key
with the value unchanged; entries with non-string or whitespace-only keys
are dropped; a missing values list yields the empty object; and of two
entries trimming to the same key the later one wins. -/
theorem buildParamsObject_spec (l : List ParamEntry) (k : String) :
    (buildParamsObject none k = none) ∧
    (buildParamsObject (some l) k =
      ((l.reverse.find? (fun e => paramEntryKey e = some k)).map ParamEntry.value)) := by
  constructor
  · rfl
  · rw [show buildParamsObject (some l) = l.foldl applyParamEntry (fun _ => none) from rfl,
      foldl_applyParamEntry_lookup k l (fun _ => none)]
    cases l.reverse.find? (fun e => paramEntryKey e = some k) <;> simp

example :
    buildParamsObject (some [⟨.str " a ", .num 1⟩, ⟨.num 3, .num 2⟩, ⟨.str "a", .num 7⟩,
      ⟨.str "  ", .num 9⟩]) "a" =
      (([⟨.str " a ", .num 1⟩, ⟨.num 3, .num 2⟩, ⟨.str "a", .num 7⟩,
        ⟨.str "  ", .num 9⟩] : List ParamEntry).reverse.find?
          (fun e => paramEntryKey e = some "a")).map ParamEntry.value := by decide
